import Mathlib

/-!
Shallow embedding of the rendering backend of the `graphviz` Python package
(`src/graphviz/backend/rendering.py`) and of the line iterator of
`src/graphviz/sources.py`, together with theorems settling the frozen claims.

Paths are modelled as POSIX path strings, mirroring the `os.path`
(`posixpath`) functions the source calls: `splitext`, `split`, `join`,
`abspath`/`normpath`.  Python `repr` of a string is modelled for strings that
contain no quote, backslash or control characters (all inputs of interest
here), where it is exactly the string wrapped in single quotes.

The filesystem and the process runner are modelled by an `Env` record (the
current working directory used by `os.path.abspath`, and the `os.path.exists`
predicate).  A successful `render` returns a `RenderSuccess` describing the
single external-process invocation (`execute.run_check` argument vector,
working directory, `quiet` flag) and the returned rendered path; an
`Except.error` result means the external process is never invoked.
-/

/-- Python `repr` of a string without special characters: wrapped in single quotes. -/
def pyRepr (s : String) : String := "'" ++ s ++ "'"

/-- Python `repr` of a list of strings, e.g. `['.bmp', '.png']`. -/
def pyReprList (l : List String) : String :=
  "[" ++ String.intercalate ", " (l.map pyRepr) ++ "]"

/-- Python `str.lower` restricted to ASCII (all registry formats are ASCII). -/
def pyLower (s : String) : String := (s.toList.map Char.toLower).asString

/-- Drop the first character of a string (used on a nonempty suffix `'.xyz'`). -/
def stringDrop1 (s : String) : String := (s.toList.drop 1).asString

/-- Whether the first character of a string is `c`. -/
def firstCharIs (s : String) (c : Char) : Bool := s.toList.head? == some c

/-- Whether the last character of a string is `c`. -/
def lastCharIs (s : String) (c : Char) : Bool := s.toList.getLast? == some c

/-- Split a character list at the last `'/'`: returns the head part including
the trailing slash, and the final path component (the basename). -/
def splitLastSlash (l : List Char) : List Char × List Char :=
  let r := l.reverse
  ((r.dropWhile (fun c => c ≠ '/')).reverse, (r.takeWhile (fun c => c ≠ '/')).reverse)

/-- Split a character list at its last `'.'`: `some (pre, post)` with
`l = pre ++ '.' :: post`, or `none` when no dot occurs. -/
def lastDotSplit (l : List Char) : Option (List Char × List Char) :=
  let r := l.reverse
  match r.dropWhile (fun c => c ≠ '.') with
  | [] => none
  | _ :: preRev => some (preRev.reverse, (r.takeWhile (fun c => c ≠ '.')).reverse)

/-- `posixpath.splitext` on character lists: leading dots of the final path
component do not start an extension; the extension starts at the last dot of
the final component otherwise. -/
def splitextList (l : List Char) : List Char × List Char :=
  let head := (splitLastSlash l).1
  let base := (splitLastSlash l).2
  let leading := base.takeWhile (fun c => c = '.')
  let rest := base.dropWhile (fun c => c = '.')
  match lastDotSplit rest with
  | none => (l, [])
  | some (pre, post) => (head ++ leading ++ pre, '.' :: post)

/-- `os.path.splitext` (POSIX). -/
def splitext (s : String) : String × String :=
  let (root, ext) := splitextList s.toList
  (root.asString, ext.asString)

/-- `os.path.split` (POSIX): split off the basename; the head keeps its
trailing slashes only when it consists of slashes alone. -/
def splitPath (s : String) : String × String :=
  let (headWithSlash, base) := splitLastSlash s.toList
  let head :=
    if headWithSlash ≠ [] && headWithSlash.any (fun c => c ≠ '/') then
      (headWithSlash.reverse.dropWhile (fun c => c = '/')).reverse
    else headWithSlash
  (head.asString, base.asString)

/-- Two-argument `posixpath.join`. -/
def pathJoin (a b : String) : String :=
  if firstCharIs b '/' then b
  else if a = "" || lastCharIs a '/' then a ++ b
  else a ++ "/" ++ b

/-- Python `str.split` on a single character (keeps empty components). -/
def splitOnChar (c : Char) : List Char → List (List Char)
  | [] => [[]]
  | x :: rest =>
    match splitOnChar c rest with
    | [] => if x = c then [[], []] else [[x]]
    | h :: t => if x = c then [] :: h :: t else (x :: h) :: t

/-- The component loop of `posixpath.normpath`: `initSlashes` is the number of
root slashes kept (0, 1 or 2), `acc` holds the already-kept components in
reverse order. -/
def normCompsRev (initSlashes : Nat) : List String → List String → List String
  | acc, [] => acc
  | acc, comp :: rest =>
    if comp = "" || comp = "." then normCompsRev initSlashes acc rest
    else if comp ≠ ".." || (initSlashes = 0 && acc.isEmpty)
        || (match acc with | last :: _ => last = ".." | [] => false) then
      normCompsRev initSlashes (comp :: acc) rest
    else
      match acc with
      | _ :: accTail => normCompsRev initSlashes accTail rest
      | [] => normCompsRev initSlashes acc rest

/-- `posixpath.normpath`. -/
def normpath (p : String) : String :=
  if p = "" then "."
  else
    let leading := (p.toList.takeWhile (fun c => c = '/')).length
    let initSlashes : Nat := if leading = 0 then 0 else if leading = 2 then 2 else 1
    let comps := (splitOnChar '/' p.toList).map List.asString
    let newComps := (normCompsRev initSlashes [] comps).reverse
    let path := (List.replicate initSlashes "/").foldr (fun a b => a ++ b)
      (String.intercalate "/" newComps)
    if path = "" then "." else path

/-- `posixpath.abspath` with an explicit current working directory. -/
def abspath (cwd p : String) : String :=
  normpath (if firstCharIs p '/' then p else pathJoin cwd p)

/-- Modelled from the spec: the Format Registry (§2, §6) of recognized output
format names; the `parameters` module is not under `src/`.  The list is kept
sorted, as `get_supported_formats` returns `sorted(parameters.FORMATS)`. -/
def FORMATS : List String :=
  ["bmp", "canon", "cgimage", "cmap", "cmapx", "cmapx_np", "dot", "dot_json",
   "eps", "exr", "fig", "gd", "gd2", "gif", "gtk", "gv", "ico", "imap",
   "imap_np", "ismap", "jp2", "jpe", "jpeg", "jpg", "json", "json0", "mp",
   "pct", "pdf", "pic", "pict", "plain", "plain-ext", "png", "pov", "ps",
   "ps2", "psd", "sgi", "svg", "svgz", "tga", "tif", "tiff", "tk", "vml",
   "vmlz", "vrml", "wbmp", "webp", "x11", "xdot", "xdot1.2", "xdot1.4",
   "xdot_json", "xlib"]

/-- Modelled from the spec: the known layout engines of the Format Registry
(§4.2); the `parameters` module is not under `src/`. -/
def ENGINES : List String :=
  ["circo", "dot", "fdp", "neato", "osage", "patchwork", "sfdp", "twopi"]

/-- Modelled from the spec: the registry's accepted renderers (§4.2). -/
def RENDERERS : List String :=
  ["cairo", "dot", "fig", "gd", "gdiplus", "map", "pic", "pov", "ps",
   "svg", "tk", "vml", "vrml", "xdot"]

/-- Modelled from the spec: the registry's accepted formatters (§4.2). -/
def FORMATTERS : List String :=
  ["cairo", "core", "gd", "gdiplus", "gdwbmp", "xlib"]

/-- `get_supported_formats`: sorted list of formats for messages
(`rendering.py` line 93). -/
def get_supported_formats : List String := FORMATS

/-- `get_supported_suffixes`: the formats prefixed with `'.'`
(`rendering.py` line 102). -/
def get_supported_suffixes : List String :=
  get_supported_formats.map (fun format => "." ++ format)

/-- Modelled from the spec: the configured default source-file suffix used to
derive a missing `filepath` (§4.3 step 2); `_defaults.DEFAULT_SOURCE_EXTENSION`
is not under `src/`.  Its value `'gv'` is pinned by the doctests of
`rendering.py` (lines 49-50: `outfile='doctest-output/spam.pdf'` reads input
`doctest-output/spam.gv`). -/
def DEFAULT_SOURCE_EXTENSION : String := "gv"

/-- The structured errors raised by the rendering layer. -/
inductive PyError where
  | valueError (msg : String)
  | requiredArgumentError (msg : String)
  | fileExistsError (msg : String)
deriving DecidableEq

/-- Decidable equality for `Except` results, used to evaluate witnesses. -/
instance {ε α : Type} [DecidableEq ε] [DecidableEq α] : DecidableEq (Except ε α) :=
  fun x y =>
    match x, y with
    | .error a, .error b =>
      if h : a = b then isTrue (congrArg Except.error h)
      else isFalse (fun hc => h (Except.error.inj hc))
    | .ok a, .ok b =>
      if h : a = b then isTrue (congrArg Except.ok h)
      else isFalse (fun hc => h (Except.ok.inj hc))
    | .error _, .ok _ => isFalse (fun hc => Except.noConfusion hc)
    | .ok _, .error _ => isFalse (fun hc => Except.noConfusion hc)

/-- Modelled from the spec: the Command Builder `dot_command.command` (§4.2);
the `dot_command` module is not under `src/`.  It validates the names against
the registry (`formatter` requires `renderer`) and produces the base argument
vector: engine selector plus the `format[:renderer[:formatter]]` selector. -/
def dot_command (engine format : String) (renderer formatter : Option String) :
    Except PyError (List String) :=
  if formatter.isSome && renderer.isNone then
    .error (.requiredArgumentError "formatter given without renderer")
  else if !ENGINES.contains engine then
    .error (.valueError ("unknown engine: " ++ pyRepr engine))
  else if !FORMATS.contains format then
    .error (.valueError ("unknown format: " ++ pyRepr format))
  else if (match renderer with
           | some r => !RENDERERS.contains r
           | none => false) then
    .error (.valueError "unknown renderer")
  else if (match formatter with
           | some f => !FORMATTERS.contains f
           | none => false) then
    .error (.valueError "unknown formatter")
  else
    .ok ["dot", "-K" ++ engine,
         "-T" ++ String.intercalate ":" (([some format, renderer, formatter]).filterMap id)]

/-- `_get_rendering_format` (`rendering.py` line 281): the format inferred
from the outfile suffix, or a `ValueError` message. -/
def _get_rendering_format (outfile : String) : Except String String :=
  let suffix := (splitext outfile).2
  if suffix = "" then
    .error ("cannot infer rendering format from outfile: " ++ pyRepr outfile
      ++ " (missing suffix)")
  else
    let format := pyLower (stringDrop1 suffix)
    if FORMATS.contains format then .ok format
    else
      .error ("cannot infer rendering format from outfile: " ++ pyRepr outfile
        ++ " (unknown format: " ++ pyRepr format
        ++ " must be one of " ++ pyReprList get_supported_formats ++ ")")

/-- `get_rendering_format` (`rendering.py` line 257): reconcile the suffix
inference with the declared format.  Non-fatal `warnings.warn` calls are
modelled as the returned list of warning messages. -/
def get_rendering_format (outfile : String) (format : Option String) :
    Except PyError (List String × String) :=
  match _get_rendering_format outfile with
  | .error _ =>
    let suffix := (splitext outfile).2
    match format with
    | none =>
      .error (.requiredArgumentError ("cannot infer rendering format from suffix "
        ++ pyRepr suffix ++ " of outfile: " ++ pyRepr outfile
        ++ " (provide format or outfile with a suffix from "
        ++ pyReprList get_supported_suffixes ++ ")"))
    | some f =>
      .ok (["unknown outfile suffix " ++ pyRepr suffix
            ++ " (expected: " ++ pyRepr ("." ++ f) ++ ")"], f)
  | .ok result =>
    match format with
    | some f =>
      if pyLower f ≠ result then
        .ok (["expected format " ++ pyRepr result
              ++ " from outfile differs from given format: " ++ pyRepr f], result)
      else .ok ([], result)
    | none => .ok ([], result)

/-- The environment of one `render` call: the process working directory used
by `os.path.abspath`, and the `os.path.exists` predicate of the filesystem. -/
structure Env where
  cwd : String
  pathExists : String → Bool

/-- The arguments of `render` (`rendering.py` line 151), with the Python
default values. -/
structure RenderArgs where
  engine : String
  format : Option String := none
  filepath : Option String := none
  renderer : Option String := none
  formatter : Option String := none
  quiet : Bool := false
  outfile : Option String := none
  raise_if_exists : Bool := false
  overwrite : Bool := false

/-- A successful `render`: the one `execute.run_check` invocation (argument
vector, working directory `dirname or None`, `quiet` flag) together with the
returned rendered path and the emitted warnings.  An `Except.error` result of
`render` means this invocation never happens. -/
structure RenderSuccess where
  cmd : List String
  cwd : Option String
  quiet : Bool
  rendered : String
  warnings : List String
deriving DecidableEq

/-- The same-file guard message (`rendering.py` line 219). -/
def sameFileMessage (outfile_filename filename : String) : String :=
  "outfile " ++ pyRepr outfile_filename ++ " must be different from input file "
    ++ pyRepr filename

/-- Derivation of a missing `filepath` from `outfile` (`rendering.py`
lines 208-210): replace the suffix with the default source extension. -/
def derive_filepath (outfile : String) : String :=
  (splitext outfile).1 ++ "." ++ DEFAULT_SOURCE_EXTENSION

/-- The predicted rendered path of inferred-outfile mode (`rendering.py`
lines 244-247): input directory joined with
`filename.formatter.renderer.format` (absent parts skipped). -/
def inferredRendered (formatter renderer : Option String) (format filepath : String) :
    String :=
  let dirname := (splitPath filepath).1
  let filename := (splitPath filepath).2
  let suffix := String.intercalate "." (([formatter, renderer, some format]).filterMap id)
  pathJoin dirname (filename ++ "." ++ suffix)

/-- The common tail of `render` (`rendering.py` lines 249-254): the
`raise_if_exists` pre-existence check, then the `run_check` invocation with
`cwd=dirname or None` and the return of the predicted path. -/
def finishRender (env : Env) (raise_if_exists quiet : Bool) (cmd : List String)
    (dirname rendered : String) (warnings : List String) :
    Except PyError RenderSuccess :=
  if raise_if_exists && env.pathExists rendered then
    .error (.fileExistsError ("output file exists: " ++ pyRepr rendered))
  else
    .ok { cmd := cmd,
          cwd := if dirname = "" then none else some dirname,
          quiet := quiet,
          rendered := rendered,
          warnings := warnings }

/-- `render` (`rendering.py` line 151): the Render Orchestrator. -/
def render (env : Env) (a : RenderArgs) : Except PyError RenderSuccess :=
  if a.raise_if_exists && a.overwrite then
    .error (.valueError "overwrite cannot be combined with raise_if_exists")
  else
    match a.outfile with
    | some outfile =>
      match get_rendering_format outfile a.format with
      | .error e => .error e
      | .ok (warns, format) =>
        match dot_command a.engine format a.renderer a.formatter with
        | .error e => .error e
        | .ok cmd0 =>
          let filepath := a.filepath.getD (derive_filepath outfile)
          let dirname := (splitPath filepath).1
          let filename := (splitPath filepath).2
          let outfile_dirname := (splitPath outfile).1
          let outfile_filename := (splitPath outfile).2
          if (outfile_filename == filename)
              && (abspath env.cwd outfile_dirname == abspath env.cwd dirname)
              && !a.overwrite then
            .error (.valueError (sameFileMessage outfile_filename filename))
          else
            let outArg :=
              if outfile_dirname ≠ dirname then abspath env.cwd outfile
              else outfile_filename
            finishRender env a.raise_if_exists a.quiet
              (cmd0 ++ ["-o", outArg, filename]) dirname outfile warns
    | none =>
      match a.format with
      | none =>
        .error (.requiredArgumentError
          "format: (required if outfile is not given, got None)")
      | some format =>
        match a.filepath with
        | none =>
          .error (.requiredArgumentError
            "filepath: (required if outfile is not given, got None)")
        | some filepath =>
          match dot_command a.engine format a.renderer a.formatter with
          | .error e => .error e
          | .ok cmd0 =>
            let dirname := (splitPath filepath).1
            let filename := (splitPath filepath).2
            finishRender env a.raise_if_exists a.quiet
              (cmd0 ++ ["-O", filename]) dirname
              (inferredRendered a.formatter a.renderer format filepath) []

/-- The line boundaries of Python `str.splitlines` (`'\r\n'` is treated as a
single two-character boundary by the lookahead in `slAux`). -/
def isLineBound (c : Char) : Bool :=
  c = '\n' || c = '\r' || c = '\x0b' || c = '\x0c' || c = '\x1c' || c = '\x1d'
    || c = '\x1e' || c = '\x85' || c = '\u2028' || c = '\u2029'

/-- Worker of Python `str.splitlines(keepends=True)`: `acc` holds the
characters of the current line in reverse; `'\r'` immediately followed by
`'\n'` ends a line with the two-character boundary `'\r\n'`. -/
def slAux : List Char → List Char → List (List Char)
  | acc, [] => if acc.isEmpty then [] else [acc.reverse]
  | acc, [c] =>
    if isLineBound c then [acc.reverse ++ [c]] else [(c :: acc).reverse]
  | acc, c :: c2 :: rest =>
    if c = '\r' && c2 = '\n' then (acc.reverse ++ ['\r', '\n']) :: slAux [] rest
    else if isLineBound c then (acc.reverse ++ [c]) :: slAux [] (c2 :: rest)
    else slAux (c :: acc) (c2 :: rest)

/-- Python `str.splitlines(keepends=True)` on a character list. -/
def splitlinesKeepends (s : List Char) : List (List Char) := slAux [] s

/-- `Source.__iter__` (`sources.py` lines 83-93): yield
`lines = source.splitlines(keepends=True)`, all but the last line verbatim,
and the last line with a `'\n'` appended unless it already ends with one.
The yielded sequence is modelled as the list of yielded lines. -/
def sourceIterLines (source : List Char) : List (List Char) :=
  let lines := splitlinesKeepends source
  lines.dropLast ++
    (lines.drop (lines.length - 1)).map
      (fun line => if line.getLast? = some '\n' then line else line ++ ['\n'])

/-- A concrete environment: working directory `/tmp`, no file exists. -/
def envW : Env := { cwd := "/tmp", pathExists := fun _ => false }
/-- A concrete environment: working directory `/tmp`, every file exists. -/
def envE : Env := { cwd := "/tmp", pathExists := fun _ => true }
/-- Arguments of the C1 witness: `render('dot', 'gv', 'spam.gv',
outfile='spam.gv')`. -/
def argsC1 : RenderArgs :=
  { engine := "dot"
    format := some "gv"
    filepath := some "spam.gv"
    outfile := some "spam.gv" }
/-- Arguments of the C1 witness with `overwrite=True`. -/
def argsC1ov : RenderArgs :=
  { engine := "dot"
    format := some "gv"
    filepath := some "spam.gv"
    outfile := some "spam.gv"
    overwrite := true }
/-- Arguments of the C3 witness: an unknown engine and an outfile whose
format reconciliation would itself fail, showing the flag conflict wins. -/
def argsC3 : RenderArgs :=
  { engine := "nonsense"
    outfile := some "spam.mp3"
    raise_if_exists := true
    overwrite := true }
/-- Follows the claim's words for C4, for comparison with the source's
`os.path.splitext`-based code: the "final suffix" of a path read as "the
substring after the last '.'". -/
def claimSuffixAfterLastDot (s : String) : Option String :=
  match lastDotSplit s.toList with
  | none => none
  | some (_, post) => some post.asString
/-- Arguments of the C5 witness: `render('dot', 'png', 'spam.gv')`. -/
def argsC5 : RenderArgs :=
  { engine := "dot"
    format := some "png"
    filepath := some "spam.gv" }
/-- The successful invocation of the C5 witness. -/
def okC5 : RenderSuccess :=
  { cmd := ["dot", "-Kdot", "-Tpng", "-O", "spam.gv"]
    cwd := none
    quiet := false
    rendered := "spam.gv.png"
    warnings := [] }
/-- Arguments of the C6 witness, different-directory case. -/
def argsC6 : RenderArgs :=
  { engine := "dot"
    filepath := some "doctest-output/spam.gv"
    outfile := some "doctest-output/render/spam.pdf" }
/-- The successful invocation of the C6 witness, different-directory case:
the output argument is the absolute path. -/
def okC6 : RenderSuccess :=
  { cmd := ["dot", "-Kdot", "-Tpdf",
            "-o", "/tmp/doctest-output/render/spam.pdf", "spam.gv"]
    cwd := some "doctest-output"
    quiet := false
    rendered := "doctest-output/render/spam.pdf"
    warnings := [] }
/-- Arguments of the C6 witness, same-directory case. -/
def argsC6same : RenderArgs :=
  { engine := "dot"
    filepath := some "doctest-output/spam.gv"
    outfile := some "doctest-output/spam.pdf" }
/-- The successful invocation of the C6 witness, same-directory case:
the output argument is the bare filename. -/
def okC6same : RenderSuccess :=
  { cmd := ["dot", "-Kdot", "-Tpdf", "-o", "spam.pdf", "spam.gv"]
    cwd := some "doctest-output"
    quiet := false
    rendered := "doctest-output/spam.pdf"
    warnings := [] }
/-- Arguments of the C7 witness, explicit-outfile mode. -/
def argsC7 : RenderArgs :=
  { engine := "dot"
    outfile := some "doctest-output/spam.png"
    raise_if_exists := true }
/-- Arguments of the C7 witness, inferred-outfile mode. -/
def argsC7auto : RenderArgs :=
  { engine := "dot"
    format := some "png"
    filepath := some "spam.gv"
    raise_if_exists := true }
/-- Arguments of the C9 witness: `render('dot',
outfile='doctest-output/spam.pdf')` with no filepath. -/
def argsC9 : RenderArgs :=
  { engine := "dot"
    outfile := some "doctest-output/spam.pdf" }
/-- The successful invocation of the C9 witness: the derived input file is
`doctest-output/spam.gv`, split into working directory and basename. -/
def okC9 : RenderSuccess :=
  { cmd := ["dot", "-Kdot", "-Tpdf", "-o", "spam.pdf", "spam.gv"]
    cwd := some "doctest-output"
    quiet := false
    rendered := "doctest-output/spam.pdf"
    warnings := [] }

/-- Concatenating the lines produced by `splitlinesKeepends` recovers the
input: the boundaries are kept. -/
theorem slAux_flatten (acc : List Char) (l : List Char) :
    (slAux acc l).flatten = acc.reverse ++ l := by
  induction acc, l using slAux.induct with
  | _ => simp_all [slAux] <;> split <;> simp_all

/-- Every line produced by `splitlinesKeepends` is nonempty. -/
theorem slAux_ne_nil (acc : List Char) (l : List Char) :
    ∀ x ∈ slAux acc l, x ≠ [] := by
  induction acc, l using slAux.induct with
  | _ => simp_all [slAux] <;> split <;> simp_all

/-- C10: line iteration round-trip of `Source`.  For every nonempty source
string, concatenating all strings yielded by `Source.__iter__` gives back the
source itself when it already ends with `'\n'`, and the source with a single
`'\n'` appended otherwise; for the empty source string the iterator yields
nothing. -/
theorem source_iter_line_roundtrip :
    sourceIterLines [] = []
  ∧ ∀ s : List Char, s ≠ [] →
      (sourceIterLines s).flatten =
        if s.getLast? = some '\n' then s else s ++ ['\n'] := by
  constructor
  · rfl
  · intro s hs
    have hflat : (splitlinesKeepends s).flatten = s := by
      simpa using slAux_flatten [] s
    rcases (splitlinesKeepends s).eq_nil_or_concat with hnil | ⟨L, z, hline⟩
    · rw [hnil] at hflat; simp at hflat; exact absurd hflat.symm (Ne.symm hs)
    · have hz : z ≠ [] := slAux_ne_nil [] s z
        (by simp [splitlinesKeepends] at hline ⊢; rw [hline]; simp)
      have hsval : L.flatten ++ z = s := by
        rw [hline] at hflat; simpa using hflat
      have hlast : s.getLast? = z.getLast? := by
        rw [← hsval]
        exact List.getLast?_append_of_ne_nil _ hz
      have hiter : sourceIterLines s
          = L ++ [if z.getLast? = some '\n' then z else z ++ ['\n']] := by
        unfold sourceIterLines
        rw [hline]
        simp [List.dropLast_concat]
      rw [hiter, hlast]
      by_cases hnl : z.getLast? = some '\n'
      · simp [hnl, hsval]
      · simp [hnl, ← hsval]

/-- Witness for C10 at the source strings `"a\nb"` (no trailing newline) and
`"a\nb\n"` (trailing newline). -/
theorem source_iter_line_roundtrip_witness :
    ("a\nb".toList ≠ [] ∧ (sourceIterLines "a\nb".toList).flatten = "a\nb\n".toList)
  ∧ ("a\nb\n".toList ≠ []
     ∧ (sourceIterLines "a\nb\n".toList).flatten = "a\nb\n".toList) := by
  refine ⟨⟨by decide, ?_⟩, by decide, ?_⟩
  · exact (source_iter_line_roundtrip.2 _ (by decide)).trans (by decide)
  · exact (source_iter_line_roundtrip.2 _ (by decide)).trans (by decide)

/-- C1: same-file overwrite guard.  In explicit-outfile mode (the flag check
passed, format reconciliation and command building succeeded), `render`
raises the `ValueError` naming both filenames if and only if the basename of
`outfile` equals the basename of the given-or-derived `filepath`, the
absolute paths of their directory parts are equal, and `overwrite` is false;
in particular no such error is raised when `overwrite` is true, nor when the
directories differ even if the basenames match. -/
theorem same_file_guard (env : Env) (a : RenderArgs) (o : String)
    (ho : a.outfile = some o)
    (hflags : (a.raise_if_exists && a.overwrite) = false)
    (w : List String) (fmt : String)
    (hfmt : get_rendering_format o a.format = .ok (w, fmt))
    (cmd0 : List String)
    (hcmd : dot_command a.engine fmt a.renderer a.formatter = .ok cmd0) :
    (render env a =
        .error (.valueError (sameFileMessage (splitPath o).2
          (splitPath (a.filepath.getD (derive_filepath o))).2)))
      ↔ ((splitPath o).2 = (splitPath (a.filepath.getD (derive_filepath o))).2
         ∧ abspath env.cwd (splitPath o).1
             = abspath env.cwd (splitPath (a.filepath.getD (derive_filepath o))).1
         ∧ a.overwrite = false) := by
  simp only [render, ho, hfmt, hcmd, hflags, Bool.false_eq_true, if_false]
  split
  next hc =>
    simp only [Bool.and_eq_true, beq_iff_eq, Bool.not_eq_true'] at hc
    simp [hc]
  next hc =>
    simp only [Bool.and_eq_true, beq_iff_eq, Bool.not_eq_true'] at hc
    constructor
    · intro h
      exfalso
      unfold finishRender at h
      split at h
      · exact PyError.noConfusion (Except.error.inj h)
      · exact Except.noConfusion h
    · intro h
      exact absurd h (by tauto)

/-- Witness for C1: `render('dot', 'gv', 'spam.gv', outfile='spam.gv')` fails
with the same-file `ValueError` naming `'spam.gv'` twice, and the same call
with `overwrite=True` does not raise that error. -/
theorem same_file_guard_witness :
    (render envW argsC1 =
      .error (.valueError
        "outfile 'spam.gv' must be different from input file 'spam.gv'"))
  ∧ render envW argsC1ov ≠
      .error (.valueError (sameFileMessage (splitPath "spam.gv").2
        (splitPath (argsC1ov.filepath.getD (derive_filepath "spam.gv"))).2)) :=
  ⟨(same_file_guard envW argsC1 "spam.gv" rfl rfl [] "gv" (by decide)
      ["dot", "-Kdot", "-Tgv"] (by decide)).mpr ⟨by decide, by decide, rfl⟩,
   fun h => absurd (((same_file_guard envW argsC1ov "spam.gv" rfl rfl [] "gv"
      (by decide) ["dot", "-Kdot", "-Tgv"] (by decide)).mp h).2.2) (by decide)⟩

/-- C2: format reconciliation precedence of `get_rendering_format`.  When
suffix inference succeeds and a declared format differing case-insensitively
from the inferred one is given, a non-fatal warning naming both values is
emitted and the inferred format wins; when inference fails and no format was
declared, a `RequiredArgumentError` naming the bad suffix and listing the
valid suffixes is raised; when inference fails and a format was declared, a
warning naming the unrecognized suffix and the expected suffix for the
declared format is emitted and the declared format wins. -/
theorem reconcile_format (outfile f : String) :
    (∀ inferred, _get_rendering_format outfile = .ok inferred →
      pyLower f ≠ inferred →
      get_rendering_format outfile (some f) =
        .ok (["expected format " ++ pyRepr inferred
              ++ " from outfile differs from given format: " ++ pyRepr f],
             inferred))
  ∧ ((∃ e, _get_rendering_format outfile = .error e) →
      get_rendering_format outfile none =
        .error (.requiredArgumentError ("cannot infer rendering format from suffix "
          ++ pyRepr (splitext outfile).2 ++ " of outfile: " ++ pyRepr outfile
          ++ " (provide format or outfile with a suffix from "
          ++ pyReprList get_supported_suffixes ++ ")")))
  ∧ ((∃ e, _get_rendering_format outfile = .error e) →
      get_rendering_format outfile (some f) =
        .ok (["unknown outfile suffix " ++ pyRepr (splitext outfile).2
              ++ " (expected: " ++ pyRepr ("." ++ f) ++ ")"], f)) := by
  refine ⟨?_, ?_, ?_⟩
  · intro inferred hok hne
    simp [get_rendering_format, hok, hne]
  · rintro ⟨e, herr⟩
    simp [get_rendering_format, herr]
  · rintro ⟨e, herr⟩
    simp [get_rendering_format, herr]

set_option maxRecDepth 8192 in
/-- Witness for C2 at the doctest inputs: `spam.dot` with declared `plain`
(warning, inferred `dot` wins), `spam.peng` with no format (error), and
`spam.peng` with declared `png` (warning, declared wins). -/
theorem reconcile_format_witness :
    (pyLower "plain" ≠ "dot"
     ∧ get_rendering_format "spam.dot" (some "plain") =
        .ok (["expected format 'dot' from outfile differs from given format: 'plain'"],
             "dot"))
  ∧ get_rendering_format "spam.peng" none =
      .error (.requiredArgumentError ("cannot infer rendering format from suffix "
        ++ pyRepr (splitext "spam.peng").2 ++ " of outfile: " ++ pyRepr "spam.peng"
        ++ " (provide format or outfile with a suffix from "
        ++ pyReprList get_supported_suffixes ++ ")"))
  ∧ get_rendering_format "spam.peng" (some "png") =
      .ok (["unknown outfile suffix '.peng' (expected: '.png')"], "png") :=
  ⟨⟨by decide, (reconcile_format "spam.dot" "plain").1 "dot" (by decide) (by decide)⟩,
   (reconcile_format "spam.peng" "png").2.1 ⟨_, rfl⟩,
   (reconcile_format "spam.peng" "png").2.2 ⟨_, rfl⟩⟩

/-- C3: for every combination of the other arguments (including otherwise
invalid ones), if `raise_if_exists` and `overwrite` are both true, `render`
fails with `ValueError('overwrite cannot be combined with raise_if_exists')`;
the quantification over all other arguments shows the check precedes every
other validation. -/
theorem overwrite_conflict_precedes (env : Env) (a : RenderArgs)
    (h1 : a.raise_if_exists = true) (h2 : a.overwrite = true) :
    render env a =
      .error (.valueError "overwrite cannot be combined with raise_if_exists") := by
  simp [render, h1, h2]

/-- Witness for C3: the conflict error is raised even though the engine is
unknown and the outfile suffix `'.mp3'` is not inferable. -/
theorem overwrite_conflict_precedes_witness :
    render envW argsC3 =
      .error (.valueError "overwrite cannot be combined with raise_if_exists") :=
  overwrite_conflict_precedes envW argsC3 rfl rfl

/-- Counterexample to C4 as stated: the path `'.png'` has final suffix
`'png'` in the claim's sense ("the substring after the last '.'"), which
lower-cases to a registered format, yet `_get_rendering_format` does not
return it — `os.path.splitext` treats the leading dot of the basename as part
of the root, so the code raises the missing-suffix error instead. -/
theorem suffix_inference_counterexample :
    claimSuffixAfterLastDot ".png" = some "png"
  ∧ FORMATS.contains (pyLower "png") = true
  ∧ _get_rendering_format ".png" ≠ .ok (pyLower "png")
  ∧ _get_rendering_format ".png" =
      .error "cannot infer rendering format from outfile: '.png' (missing suffix)" :=
  ⟨by decide, by decide, by decide, by decide⟩

/-- C4 (amended): with "final suffix" taken as the extension computed by
`os.path.splitext` (the part of the final path component starting at its last
`'.'`, where dots leading the component never start a suffix), for every path
whose suffix, once lower-cased, is a registered format,
`_get_rendering_format` returns that lower-cased suffix regardless of input
case; for a path with empty suffix it fails with a missing-suffix error
naming the path; for a path whose lower-cased suffix is not a registered
format it fails with an unknown-format error naming the path and listing the
registry's known formats. -/
theorem suffix_inference (path : String) :
    ((splitext path).2 ≠ "" →
      FORMATS.contains (pyLower (stringDrop1 (splitext path).2)) = true →
      _get_rendering_format path = .ok (pyLower (stringDrop1 (splitext path).2)))
  ∧ ((splitext path).2 = "" →
      _get_rendering_format path =
        .error ("cannot infer rendering format from outfile: "
          ++ pyRepr path ++ " (missing suffix)"))
  ∧ ((splitext path).2 ≠ "" →
      FORMATS.contains (pyLower (stringDrop1 (splitext path).2)) = false →
      _get_rendering_format path =
        .error ("cannot infer rendering format from outfile: "
          ++ pyRepr path ++ " (unknown format: "
          ++ pyRepr (pyLower (stringDrop1 (splitext path).2))
          ++ " must be one of " ++ pyReprList get_supported_formats ++ ")")) := by
  refine ⟨?_, ?_, ?_⟩
  · intro h1 h2
    have h2m : pyLower (stringDrop1 (splitext path).2) ∈ FORMATS := by simpa using h2
    simp [_get_rendering_format, h1, h2m]
  · intro h1; simp [_get_rendering_format, h1]
  · intro h1 h2
    have h2m : pyLower (stringDrop1 (splitext path).2) ∉ FORMATS := by simpa using h2
    simp [_get_rendering_format, h1, h2m]

set_option maxRecDepth 8192 in
/-- Witness for C4 at `'spam.PNG'` (mixed case, registered), `'spam'`
(missing suffix) and `'spam.mp3'` (unknown format). -/
theorem suffix_inference_witness :
    ((splitext "spam.PNG").2 ≠ ""
     ∧ _get_rendering_format "spam.PNG" = .ok "png")
  ∧ _get_rendering_format "spam" =
      .error "cannot infer rendering format from outfile: 'spam' (missing suffix)"
  ∧ _get_rendering_format "spam.mp3" =
      .error ("cannot infer rendering format from outfile: "
        ++ pyRepr "spam.mp3" ++ " (unknown format: "
        ++ pyRepr (pyLower (stringDrop1 (splitext "spam.mp3").2))
        ++ " must be one of " ++ pyReprList get_supported_formats ++ ")") :=
  ⟨⟨by decide, (suffix_inference "spam.PNG").1 (by decide) (by decide)⟩,
   (suffix_inference "spam").2.1 (by decide),
   (suffix_inference "spam.mp3").2.2 (by decide) (by decide)⟩

/-- C5: inferred-outfile naming.  For every `render` call with `outfile`
absent and `format` and `filepath` present that succeeds, the returned path
is the input file's directory joined with `<inputFilename>.<suffixChain>`,
where the suffix chain joins with `'.'` exactly those of `formatter`,
`renderer`, `format` that are non-absent, in that order. -/
theorem inferred_outfile_name (env : Env) (a : RenderArgs) (fmt fp : String)
    (r : RenderSuccess)
    (ho : a.outfile = none) (hf : a.format = some fmt) (hfp : a.filepath = some fp)
    (hr : render env a = .ok r) :
    r.rendered = pathJoin (splitPath fp).1
      ((splitPath fp).2 ++ "."
        ++ String.intercalate "." (([a.formatter, a.renderer, some fmt]).filterMap id)) := by
  simp only [render, ho, hf, hfp] at hr
  split at hr
  · exact Except.noConfusion hr
  · split at hr
    · exact Except.noConfusion hr
    · unfold finishRender at hr
      split at hr
      · exact Except.noConfusion hr
      · cases Except.ok.inj hr
        simp [inferredRendered]

/-- Witness for C5: `render('dot', 'png', 'spam.gv')` succeeds and returns
`'spam.gv.png'`. -/
theorem inferred_outfile_name_witness :
    render envW argsC5 = .ok okC5 ∧ okC5.rendered = "spam.gv.png" :=
  ⟨by decide,
   (inferred_outfile_name envW argsC5 "png" "spam.gv" okC5 rfl rfl rfl
      (by decide)).trans (by decide)⟩

/-- C6: output argument form.  In explicit-outfile mode, the output argument
placed after `'-o'` in the command vector is the bare outfile basename when
the outfile's directory part equals the input file's directory part, and the
absolute form of `outfile` when the directory parts differ. -/
theorem outfile_output_argument (env : Env) (a : RenderArgs) (o : String)
    (ho : a.outfile = some o)
    (w : List String) (fmt : String)
    (hfmt : get_rendering_format o a.format = .ok (w, fmt))
    (cmd0 : List String)
    (hcmd : dot_command a.engine fmt a.renderer a.formatter = .ok cmd0)
    (r : RenderSuccess)
    (hr : render env a = .ok r) :
    r.cmd = cmd0 ++ ["-o",
      if (splitPath o).1 = (splitPath (a.filepath.getD (derive_filepath o))).1
      then (splitPath o).2 else abspath env.cwd o,
      (splitPath (a.filepath.getD (derive_filepath o))).2] := by
  simp only [render, ho, hfmt, hcmd] at hr
  split at hr
  · exact Except.noConfusion hr
  · split at hr
    · exact Except.noConfusion hr
    · unfold finishRender at hr
      split at hr
      · exact Except.noConfusion hr
      · cases Except.ok.inj hr
        by_cases hd : (splitPath o).1 = (splitPath (a.filepath.getD (derive_filepath o))).1
        · simp [hd]
        · simp [hd]

/-- Witness for C6: with input `doctest-output/spam.gv`, the outfile
`doctest-output/render/spam.pdf` is passed as the absolute
`/tmp/doctest-output/render/spam.pdf` (cwd `/tmp`), while the outfile
`doctest-output/spam.pdf` is passed as the bare `spam.pdf`. -/
theorem outfile_output_argument_witness :
    (render envW argsC6 = .ok okC6
     ∧ okC6.cmd = ["dot", "-Kdot", "-Tpdf"]
         ++ ["-o", "/tmp/doctest-output/render/spam.pdf", "spam.gv"])
  ∧ (render envW argsC6same = .ok okC6same
     ∧ okC6same.cmd = ["dot", "-Kdot", "-Tpdf"] ++ ["-o", "spam.pdf", "spam.gv"]) :=
  ⟨⟨by decide,
    (outfile_output_argument envW argsC6 "doctest-output/render/spam.pdf" rfl
      [] "pdf" (by decide) ["dot", "-Kdot", "-Tpdf"] (by decide) okC6
      (by decide)).trans (by decide)⟩,
   ⟨by decide,
    (outfile_output_argument envW argsC6same "doctest-output/spam.pdf" rfl
      [] "pdf" (by decide) ["dot", "-Kdot", "-Tpdf"] (by decide) okC6same
      (by decide)).trans (by decide)⟩⟩

/-- C7: raise-if-exists precondition.  In either output-naming mode, once the
stages before the existence check pass, if `raise_if_exists` is true and a
file exists at the predicted output path, `render` fails with a
`FileExistsError` naming that path.  The error is returned instead of a
`RenderSuccess`, and in this embedding only a `RenderSuccess` represents an
invocation of the process runner, so the external process is never invoked. -/
theorem raise_if_exists_precondition (env : Env) (a : RenderArgs)
    (hrie : a.raise_if_exists = true) (hov : a.overwrite = false) :
    (∀ o w fmt cmd0, a.outfile = some o →
      get_rendering_format o a.format = .ok (w, fmt) →
      dot_command a.engine fmt a.renderer a.formatter = .ok cmd0 →
      ¬((splitPath o).2 = (splitPath (a.filepath.getD (derive_filepath o))).2
        ∧ abspath env.cwd (splitPath o).1
            = abspath env.cwd (splitPath (a.filepath.getD (derive_filepath o))).1) →
      env.pathExists o = true →
      render env a = .error (.fileExistsError ("output file exists: " ++ pyRepr o)))
  ∧ (∀ fmt fp cmd0, a.outfile = none → a.format = some fmt → a.filepath = some fp →
      dot_command a.engine fmt a.renderer a.formatter = .ok cmd0 →
      env.pathExists (inferredRendered a.formatter a.renderer fmt fp) = true →
      render env a = .error (.fileExistsError ("output file exists: "
        ++ pyRepr (inferredRendered a.formatter a.renderer fmt fp)))) := by
  constructor
  · intro o w fmt cmd0 ho hfmt hcmd hguard hex
    have hc : (((splitPath o).2 == (splitPath (a.filepath.getD (derive_filepath o))).2)
        && ((abspath env.cwd (splitPath o).1
            == abspath env.cwd (splitPath (a.filepath.getD (derive_filepath o))).1))
        && !a.overwrite) = false := by
      apply Bool.eq_false_iff.mpr
      intro hc'
      apply hguard
      simpa [Bool.and_eq_true, beq_iff_eq, hov] using hc'
    have hflags : (a.raise_if_exists && a.overwrite) = false := by simp [hov]
    simp only [render, ho, hfmt, hcmd, hflags, Bool.false_eq_true, if_false]
    rw [hc]
    simp [finishRender, hrie, hex]
  · intro fmt fp cmd0 ho hf hfp hcmd hex
    simp [render, finishRender, ho, hf, hfp, hcmd, hrie, hov, hex]

/-- Witness for C7: with every file existing, both modes fail with the
file-exists error naming the predicted path, before any invocation. -/
theorem raise_if_exists_precondition_witness :
    render envE argsC7 =
      .error (.fileExistsError "output file exists: 'doctest-output/spam.png'")
  ∧ render envE argsC7auto =
      .error (.fileExistsError "output file exists: 'spam.gv.png'") :=
  ⟨(raise_if_exists_precondition envE argsC7 rfl rfl).1 "doctest-output/spam.png"
      [] "png" ["dot", "-Kdot", "-Tpng"] rfl (by decide) (by decide) (by decide) rfl,
   (raise_if_exists_precondition envE argsC7auto rfl rfl).2 "png" "spam.gv"
      ["dot", "-Kdot", "-Tpng"] rfl rfl rfl (by decide) rfl⟩

/-- C8: required-argument errors in inferred-outfile mode.  For every
`render` call with `outfile` absent (and the preceding flag check passed),
if `format` is absent it fails with the `RequiredArgumentError` naming
`format`, regardless of `filepath`; if `format` is present and `filepath`
absent, it fails with the `RequiredArgumentError` naming `filepath` — so the
`format` check is made before the `filepath` check. -/
theorem required_arguments_inferred_mode (env : Env) (a : RenderArgs)
    (ho : a.outfile = none)
    (hflags : (a.raise_if_exists && a.overwrite) = false) :
    (a.format = none →
      render env a = .error (.requiredArgumentError
        "format: (required if outfile is not given, got None)"))
  ∧ (∀ f, a.format = some f → a.filepath = none →
      render env a = .error (.requiredArgumentError
        "filepath: (required if outfile is not given, got None)")) := by
  constructor
  · intro hf; simp [render, ho, hf, hflags]
  · intro f hf hfp; simp [render, ho, hf, hfp, hflags]

/-- Witness for C8: `render(engine='dot')` fails naming `format`, and
`render(engine='dot', format='svg')` fails naming `filepath`. -/
theorem required_arguments_inferred_mode_witness :
    render envW { engine := "dot" } = .error (.requiredArgumentError
      "format: (required if outfile is not given, got None)")
  ∧ render envW { engine := "dot", format := some "svg" } =
      .error (.requiredArgumentError
        "filepath: (required if outfile is not given, got None)") :=
  ⟨(required_arguments_inferred_mode envW { engine := "dot" } rfl rfl).1 rfl,
   (required_arguments_inferred_mode envW { engine := "dot", format := some "svg" }
      rfl rfl).2 "svg" rfl rfl⟩

/-- C9: explicit-outfile mode resolution.  For every successful `render`
call with `outfile` present, the value returned to the caller is `outfile`
exactly as given (predicted, not re-read from disk); and when `filepath` was
absent, the input file passed to the tool is the basename of the derived
path — `outfile` with its final suffix replaced by the default source-file
suffix — and the working directory is that derived path's directory. -/
theorem outfile_mode_resolution (env : Env) (a : RenderArgs) (o : String)
    (ho : a.outfile = some o)
    (r : RenderSuccess)
    (hr : render env a = .ok r) :
    r.rendered = o
    ∧ (a.filepath = none →
        r.cmd.getLast? =
          some (splitPath ((splitext o).1 ++ "." ++ DEFAULT_SOURCE_EXTENSION)).2
        ∧ r.cwd =
          (if (splitPath ((splitext o).1 ++ "." ++ DEFAULT_SOURCE_EXTENSION)).1 = ""
           then none
           else some (splitPath ((splitext o).1 ++ "." ++ DEFAULT_SOURCE_EXTENSION)).1)) := by
  simp only [render, ho] at hr
  split at hr
  · exact Except.noConfusion hr
  · split at hr
    · exact Except.noConfusion hr
    · split at hr
      · exact Except.noConfusion hr
      · split at hr
        · exact Except.noConfusion hr
        · unfold finishRender at hr
          split at hr
          · exact Except.noConfusion hr
          · cases Except.ok.inj hr
            constructor
            · rfl
            · intro hfp
              constructor
              · simp [hfp, derive_filepath,
                  List.getLast?_append_of_ne_nil _ (by simp : ["-o", _, _] ≠ [])]
              · simp [hfp, derive_filepath]

/-- Witness for C9: the call returns `doctest-output/spam.pdf` as given, the
input argument is the derived `spam.gv`, and the working directory is
`doctest-output`. -/
theorem outfile_mode_resolution_witness :
    render envW argsC9 = .ok okC9
  ∧ okC9.rendered = "doctest-output/spam.pdf"
  ∧ okC9.cmd.getLast? = some "spam.gv"
  ∧ okC9.cwd = some "doctest-output" :=
  ⟨by decide,
   (outfile_mode_resolution envW argsC9 "doctest-output/spam.pdf" rfl okC9
      (by decide)).1,
   ((outfile_mode_resolution envW argsC9 "doctest-output/spam.pdf" rfl okC9
      (by decide)).2 rfl).1.trans (by decide),
   ((outfile_mode_resolution envW argsC9 "doctest-output/spam.pdf" rfl okC9
      (by decide)).2 rfl).2.trans (by decide)⟩
